import Mathlib

/-!
Verification of the training/early-stopping harness in `train.py`.

The file shallowly embeds the two classes of the source:

* `EarlyStopping` (lines 11-65): a patience-based early-stopping policy with
  dual loss/accuracy criteria and optional model checkpointing;
* `Trainer` (lines 68-166): an orchestrator performing `niter` random
  restarts, each of at most `epochs` train/evaluate iterations, aggregating
  the per-restart final validation/test accuracies.

Floats are modelled by exact rationals (`ℚ`); the initial
`best_val_loss = float('inf')` becomes `⊤ : WithTop ℚ`.  The model, optimizer,
RNG and dataset supplied by the external deep-learning framework are abstract
type parameters, with the framework operations (`Adam`, a gradient step,
a full evaluation, `reset_parameters`) gathered in a `TorchEnv` record.
`model.load_state_dict(None)` raises in PyTorch, so the part of
`EarlyStopping.check` after the bookkeeping returns an `Option`: `none`
models that exception (the field mutations before it have already happened,
hence `check` returns the mutated state alongside the optional result).
-/

/-- The dictionary returned by `Trainer.evaluate` (lines 95-117):
one loss and one accuracy per split. -/
structure Evals where
  train_loss : ℚ
  train_acc : ℚ
  val_loss : ℚ
  val_acc : ℚ
  test_loss : ℚ
  test_acc : ℚ
  deriving DecidableEq

/-- State of the `EarlyStopping` object (lines 11-28).  `S` is the abstract
type of model state dicts; `state_dict` is the kept checkpoint
(`None` initially). -/
@[ext]
structure EarlyStopping (S : Type) where
  patience : ℕ
  verbose : Bool
  use_loss : Bool
  use_acc : Bool
  save_model : Bool
  counter : ℕ
  best_val_loss : WithTop ℚ
  best_val_acc : ℚ
  state_dict : Option S
  deriving DecidableEq

/-- `EarlyStopping.__init__` (lines 12-22).  The `assert use_loss or use_acc`
is modelled by returning `none` when both flags are off. -/
def EarlyStopping.init? (S : Type) (patience : ℕ) (verbose use_loss use_acc save_model : Bool) :
    Option (EarlyStopping S) :=
  if use_loss || use_acc then
    some { patience := patience, verbose := verbose, use_loss := use_loss, use_acc := use_acc,
           save_model := save_model, counter := 0, best_val_loss := ⊤, best_val_acc := 0,
           state_dict := none }
  else
    none

/-- `EarlyStopping.reset` (lines 24-28). -/
def EarlyStopping.reset {S : Type} (es : EarlyStopping S) : EarlyStopping S :=
  { es with counter := 0, best_val_loss := ⊤, best_val_acc := 0, state_dict := none }

/-- The bookkeeping part of `EarlyStopping.check` (lines 31-57): updates the
best metrics, the checkpoint and the patience counter.  `model` is the current
model state (`deepcopy(model.state_dict())` is a value copy here). -/
def EarlyStopping.checkUpdate {S : Type} (es : EarlyStopping S) (evals : Evals) (model : S) :
    EarlyStopping S :=
  if es.use_loss && es.use_acc then
    if (evals.val_loss : WithTop ℚ) ≤ es.best_val_loss ∨ es.best_val_acc ≤ evals.val_acc then
      { es with
        state_dict :=
          if (evals.val_loss : WithTop ℚ) ≤ es.best_val_loss ∧ es.best_val_acc ≤ evals.val_acc then
            (if es.save_model then some model else es.state_dict)
          else es.state_dict,
        best_val_loss := min es.best_val_loss (evals.val_loss : WithTop ℚ),
        best_val_acc := max es.best_val_acc evals.val_acc,
        counter := 0 }
    else
      { es with counter := es.counter + 1 }
  else if es.use_loss then
    if (evals.val_loss : WithTop ℚ) < es.best_val_loss then
      { es with best_val_loss := (evals.val_loss : WithTop ℚ), counter := 0,
                state_dict := if es.save_model then some model else es.state_dict }
    else
      { es with counter := es.counter + 1 }
  else if es.use_acc then
    if es.best_val_acc < evals.val_acc then
      { es with best_val_acc := evals.val_acc, counter := 0,
                state_dict := if es.save_model then some model else es.state_dict }
    else
      { es with counter := es.counter + 1 }
  else
    es

/-- Full `EarlyStopping.check` (lines 30-65).  The first component is the
mutated stopper state.  The second is `some (model', stop)` when the call
returns normally (`model'` is the model state after the call, i.e. the
restored checkpoint when stopping with `save_model`), and `none` when
`model.load_state_dict(self.state_dict)` is reached with `state_dict = None`,
which raises in PyTorch.  `epoch` is only used for the verbose print in the
source and is ignored here. -/
def EarlyStopping.check {S : Type} (es : EarlyStopping S) (evals : Evals) (model : S)
    (epoch : ℕ) : EarlyStopping S × Option (S × Bool) :=
  let es' := es.checkUpdate evals model
  (es',
    if es'.patience ≤ es'.counter then
      if es'.save_model then es'.state_dict.map (fun c => (c, true))
      else some (model, true)
    else some (model, false))

/-- A sequence of `check` calls acting on the stopper state alone (the second
component of each pair is the model state passed to that call). -/
def runChecks {S : Type} (es : EarlyStopping S) (l : List (Evals × S)) : EarlyStopping S :=
  l.foldl (fun a p => a.checkUpdate p.1 p.2) es

/-- `numpy.mean` on a nonempty list of rationals (line 163-164); on the empty
list numpy yields `nan`, here the `ℚ` convention `x / 0 = 0` applies, so
theorems about it assume nonemptiness. -/
def npMean (l : List ℚ) : ℚ := l.sum / l.length

/-- The population variance, `numpy.mean(abs(x - x.mean())**2)`. -/
def npVariance (l : List ℚ) : ℚ := npMean (l.map (fun x => (x - npMean l) ^ 2))

/-- `numpy.std` (line 165): the square root of the population variance. -/
noncomputable def npStd (l : List ℚ) : ℝ := Real.sqrt ((npVariance l : ℚ) : ℝ)

/-- The operations the external deep-learning framework supplies to
`Trainer`: `S` is the model parameter state, `O` the optimizer state, `R` the
RNG/world state (parameter re-initialization and training are randomized),
`D` the dataset.  `adamInit lr weight_decay` builds a fresh `Adam` optimizer
state (its initial moments do not depend on the parameter values);
`trainStep` is the body of `Trainer.train` (lines 86-93): one forward /
backward / optimizer step; `evalModel` is the body of `Trainer.evaluate`
(lines 95-117), deterministic under `model.eval()` and `no_grad`;
`resetParams` is `model.reset_parameters()` (line 121). -/
structure TorchEnv (S O R D : Type) where
  adamInit : ℚ → ℚ → O
  trainStep : S → O → D → R → S × O × R
  evalModel : S → D → Evals
  resetParams : S → R → S × R

/-- State of a `Trainer` object (lines 68-84).  `stop_checker` is `none` when
`early_stopping` is off (the Python attribute is then never created). -/
structure Trainer (S O R D : Type) where
  model : S
  optimizer : O
  data : D
  lr : ℚ
  weight_decay : ℚ
  epochs : ℕ
  verbose : Bool
  niter : ℕ
  early_stopping : Bool
  stop_checker : Option (EarlyStopping S)

/-- `Trainer.__init__` (lines 69-84); fails (via `EarlyStopping.init?`) when
early stopping is requested with both criteria disabled.  Device placement
(`data.to(device)`) has no observable effect here. -/
def Trainer.init? {S O R D : Type} (env : TorchEnv S O R D) (model : S) (data : D)
    (lr weight_decay : ℚ) (epochs niter : ℕ) (early_stopping : Bool) (patience : ℕ)
    (use_loss use_acc save_model verbose : Bool) : Option (Trainer S O R D) :=
  if early_stopping then
    (EarlyStopping.init? S patience verbose use_loss use_acc save_model).map (fun sc =>
      { model := model, optimizer := env.adamInit lr weight_decay, data := data, lr := lr,
        weight_decay := weight_decay, epochs := epochs, verbose := verbose, niter := niter,
        early_stopping := early_stopping, stop_checker := some sc })
  else
    some { model := model, optimizer := env.adamInit lr weight_decay, data := data, lr := lr,
           weight_decay := weight_decay, epochs := epochs, verbose := verbose, niter := niter,
           early_stopping := early_stopping, stop_checker := none }

/-- `Trainer.reset` (lines 119-123): a fresh `Adam` optimizer, re-initialized
model parameters, and (when early stopping is on) a reset stop checker. -/
def Trainer.reset {S O R D : Type} (t : Trainer S O R D) (env : TorchEnv S O R D) (rng : R) :
    Trainer S O R D × R :=
  let opt := env.adamInit t.lr t.weight_decay
  let pr := env.resetParams t.model rng
  ({ t with optimizer := opt, model := pr.1,
            stop_checker := if t.early_stopping then t.stop_checker.map EarlyStopping.reset
                            else t.stop_checker },
   pr.2)

/-- `Trainer.train` (lines 86-93): one gradient step on the model and
optimizer. -/
def Trainer.train {S O R D : Type} (t : Trainer S O R D) (env : TorchEnv S O R D) (rng : R) :
    Trainer S O R D × R :=
  let s := env.trainStep t.model t.optimizer t.data rng
  ({ t with model := s.1, optimizer := s.2.1 }, s.2.2)

/-- `Trainer.evaluate` (lines 95-117). -/
def Trainer.evaluate {S O R D : Type} (t : Trainer S O R D) (env : TorchEnv S O R D) : Evals :=
  env.evalModel t.model t.data

/-- The inner epoch loop of `Trainer.run` (lines 134-147), with `fuel`
remaining iterations and `epoch` the 1-based number of the next epoch.
Returns the trainer, the RNG and the number of train/evaluate iterations
executed; `none` when a `check` call raised, or when `early_stopping` is set
without a stop checker (impossible for an initialized trainer, an
`AttributeError` in Python). -/
def Trainer.runEpochs {S O R D : Type} (env : TorchEnv S O R D) :
    Trainer S O R D → R → ℕ → ℕ → Option (Trainer S O R D × R × ℕ)
  | t, rng, _, 0 => some (t, rng, 0)
  | t, rng, epoch, fuel + 1 =>
      let t1 := (t.train env rng).1
      let rng1 := (t.train env rng).2
      let evals := t1.evaluate env
      if t1.early_stopping then
        t1.stop_checker.bind (fun sc =>
          (sc.check evals t1.model epoch).2.bind (fun pr =>
            let t2 := { t1 with stop_checker := some (sc.check evals t1.model epoch).1,
                                model := pr.1 }
            if pr.2 then some (t2, rng1, 1)
            else (Trainer.runEpochs env t2 rng1 (epoch + 1) fuel).map
                  (fun r => (r.1, r.2.1, r.2.2 + 1))))
      else
        (Trainer.runEpochs env t1 rng1 (epoch + 1) fuel).map
          (fun r => (r.1, r.2.1, r.2.2 + 1))

/-- One restart of `Trainer.run` (lines 130-158): reset, run the epoch loop,
then a final evaluation whose `val_acc`/`test_acc` are recorded.  Also
returns the number of epochs the restart executed. -/
def Trainer.runOnce {S O R D : Type} (env : TorchEnv S O R D) (t : Trainer S O R D) (rng : R) :
    Option (Trainer S O R D × R × ℕ × Evals) :=
  let r0 := t.reset env rng
  (Trainer.runEpochs env r0.1 r0.2 1 r0.1.epochs).map
    (fun r => (r.1, r.2.1, r.2.2, r.1.evaluate env))

/-- The restart loop of `Trainer.run` (lines 129-158): `n` remaining
restarts; accumulates the per-restart final validation and test accuracies
(in restart order) and the per-restart epoch counts. -/
def Trainer.runLoop {S O R D : Type} (env : TorchEnv S O R D) :
    ℕ → Trainer S O R D → R → Option (Trainer S O R D × R × List ℚ × List ℚ × List ℕ)
  | 0, t, rng => some (t, rng, [], [], [])
  | n + 1, t, rng =>
      (Trainer.runOnce env t rng).bind (fun r =>
        (Trainer.runLoop env n r.1 r.2.1).map (fun q =>
          (q.1, q.2.1, r.2.2.2.val_acc :: q.2.2.1, r.2.2.2.test_acc :: q.2.2.2.1,
           r.2.2.1 :: q.2.2.2.2)))

/-- The dictionary returned by `Trainer.run` (lines 162-166), together with
the collected per-restart lists it is computed from (`val_acc_list`,
`test_acc_list`, and the instrumented epoch counts). -/
structure RunResult where
  val_list : List ℚ
  test_list : List ℚ
  epoch_counts : List ℕ
  val_acc : ℚ
  test_acc : ℚ
  test_acc_std : ℝ

/-- `Trainer.run` (lines 125-166): `niter` restarts, then the aggregated
statistics `mean(val_acc_list)`, `mean(test_acc_list)`,
`std(test_acc_list)`. -/
noncomputable def Trainer.run {S O R D : Type} (env : TorchEnv S O R D) (t : Trainer S O R D)
    (rng : R) : Option RunResult :=
  (Trainer.runLoop env t.niter t rng).map (fun r =>
    { val_list := r.2.2.1, test_list := r.2.2.2.1, epoch_counts := r.2.2.2.2,
      val_acc := npMean r.2.2.1, test_acc := npMean r.2.2.2.1,
      test_acc_std := npStd r.2.2.2.1 })

/-! Concrete values used by witnesses and counterexamples. -/

/-- A fresh dual-criterion stopper with checkpointing, patience 2. -/
def esW : EarlyStopping Unit :=
  { patience := 2, verbose := false, use_loss := true, use_acc := true, save_model := true,
    counter := 0, best_val_loss := ⊤, best_val_acc := 0, state_dict := none }

/-- A sample evaluation: validation loss 1, validation accuracy 1/2. -/
def evW : Evals :=
  { train_loss := 0, train_acc := 0, val_loss := 1, val_acc := 1 / 2,
    test_loss := 0, test_acc := 0 }

/-- A second sample evaluation: validation loss 2, validation accuracy 1/4. -/
def evW2 : Evals :=
  { train_loss := 0, train_acc := 0, val_loss := 2, val_acc := 1 / 4,
    test_loss := 0, test_acc := 0 }

/-- A fresh loss-only stopper with checkpointing and patience 0. -/
def es5 : EarlyStopping Unit :=
  { patience := 0, verbose := false, use_loss := true, use_acc := false, save_model := true,
    counter := 0, best_val_loss := ⊤, best_val_acc := 0, state_dict := none }

/-- A fresh loss-only stopper without checkpointing and patience 0. -/
def es10 : EarlyStopping Unit :=
  { patience := 0, verbose := false, use_loss := true, use_acc := false, save_model := false,
    counter := 0, best_val_loss := ⊤, best_val_acc := 0, state_dict := none }

/-- A fresh accuracy-only stopper with checkpointing and patience 0. -/
def esAccC : EarlyStopping Unit :=
  { patience := 0, verbose := false, use_loss := false, use_acc := true, save_model := true,
    counter := 0, best_val_loss := ⊤, best_val_acc := 0, state_dict := none }

/-- An all-zero evaluation (validation accuracy 0 improves nothing). -/
def evC : Evals :=
  { train_loss := 0, train_acc := 0, val_loss := 0, val_acc := 0, test_loss := 0, test_acc := 0 }

/-- A fresh loss-only stopper, patience 2, no checkpointing. -/
def es9 : EarlyStopping Unit :=
  { patience := 2, verbose := false, use_loss := true, use_acc := false, save_model := false,
    counter := 0, best_val_loss := ⊤, best_val_acc := 0, state_dict := none }

/-- A toy framework instance: the model state is a natural number, the RNG a
counter, `resetParams` sets the model to the current counter value, a
training step is a no-op, and the test accuracy is 0 for model state 0 and
1 otherwise. -/
def env0 : TorchEnv ℕ Unit ℕ Unit :=
  { adamInit := fun _ _ => (),
    trainStep := fun m o _ r => (m, o, r),
    evalModel := fun m _ =>
      { train_loss := 0, train_acc := 0, val_loss := 0, val_acc := 0, test_loss := 0,
        test_acc := if m = 0 then 0 else 1 },
    resetParams := fun _ r => (r, r + 1) }

/-- A trainer over `env0` with two restarts, zero epochs and no early
stopping: its two restarts see model states 0 and 1, so the recorded final
test accuracies are `[0, 1]`. -/
def t0 : Trainer ℕ Unit ℕ Unit :=
  { model := 0, optimizer := (), data := (), lr := 0, weight_decay := 0, epochs := 0,
    verbose := false, niter := 2, early_stopping := false, stop_checker := none }

/-- The result of `Trainer.run env0 t0 0`, spelled out. -/
noncomputable def res0 : RunResult :=
  { val_list := [0, 0], test_list := [0, 1], epoch_counts := [0, 0],
    val_acc := npMean [0, 0], test_acc := npMean [0, 1], test_acc_std := npStd [0, 1] }

/-- A loss-only stopper over `ℕ` model states, patience 0, no checkpointing:
its very first `check` call stops. -/
def scW : EarlyStopping ℕ :=
  { patience := 0, verbose := false, use_loss := true, use_acc := false, save_model := false,
    counter := 0, best_val_loss := ⊤, best_val_acc := 0, state_dict := none }

/-- A trainer with early stopping governed by `scW`. -/
def t1w : Trainer ℕ Unit ℕ Unit :=
  { model := 5, optimizer := (), data := (), lr := 0, weight_decay := 0, epochs := 3,
    verbose := false, niter := 1, early_stopping := true, stop_checker := some scW }

/-! Helper lemmas: `checkUpdate` never touches the configuration fields. -/

@[simp]
theorem checkUpdate_patience {S : Type} (es : EarlyStopping S) (e : Evals) (m : S) :
    (es.checkUpdate e m).patience = es.patience := by
  unfold EarlyStopping.checkUpdate
  split_ifs <;> rfl

@[simp]
theorem checkUpdate_verbose {S : Type} (es : EarlyStopping S) (e : Evals) (m : S) :
    (es.checkUpdate e m).verbose = es.verbose := by
  unfold EarlyStopping.checkUpdate
  split_ifs <;> rfl

@[simp]
theorem checkUpdate_use_loss {S : Type} (es : EarlyStopping S) (e : Evals) (m : S) :
    (es.checkUpdate e m).use_loss = es.use_loss := by
  unfold EarlyStopping.checkUpdate
  split_ifs <;> rfl

@[simp]
theorem checkUpdate_use_acc {S : Type} (es : EarlyStopping S) (e : Evals) (m : S) :
    (es.checkUpdate e m).use_acc = es.use_acc := by
  unfold EarlyStopping.checkUpdate
  split_ifs <;> rfl

@[simp]
theorem checkUpdate_save_model {S : Type} (es : EarlyStopping S) (e : Evals) (m : S) :
    (es.checkUpdate e m).save_model = es.save_model := by
  unfold EarlyStopping.checkUpdate
  split_ifs <;> rfl

/-- The stopper state returned by a full `check` call is the bookkeeping
update: the stop/restore section (lines 58-65) does not mutate the stopper. -/
theorem check_fst {S : Type} (es : EarlyStopping S) (e : Evals) (m : S) (ep : ℕ) :
    (es.check e m ep).1 = es.checkUpdate e m := rfl

/-- With the loss criterion enabled, one `check` call turns the best
validation loss into `min` of the old best and the new loss. -/
theorem checkUpdate_best_val_loss {S : Type} (es : EarlyStopping S) (e : Evals) (m : S)
    (hl : es.use_loss = true) :
    (es.checkUpdate e m).best_val_loss = min es.best_val_loss (e.val_loss : WithTop ℚ) := by
  obtain ⟨p, v, ul, ua, sm, c, bl, ba, sd⟩ := es
  simp only at hl
  subst hl
  cases ua with
  | false =>
      by_cases h1 : (e.val_loss : WithTop ℚ) < bl
      · simp [EarlyStopping.checkUpdate, h1, min_eq_right h1.le]
      · simp [EarlyStopping.checkUpdate, h1, min_eq_left (not_lt.mp h1)]
  | true =>
      by_cases h1 : (e.val_loss : WithTop ℚ) ≤ bl ∨ ba ≤ e.val_acc
      · simp [EarlyStopping.checkUpdate, h1]
      · have h2 : bl < (e.val_loss : WithTop ℚ) := not_le.mp (fun hc => h1 (Or.inl hc))
        simp [EarlyStopping.checkUpdate, h1, min_eq_left h2.le]

/-- With the accuracy criterion enabled, one `check` call turns the best
validation accuracy into `max` of the old best and the new accuracy. -/
theorem checkUpdate_best_val_acc {S : Type} (es : EarlyStopping S) (e : Evals) (m : S)
    (ha : es.use_acc = true) :
    (es.checkUpdate e m).best_val_acc = max es.best_val_acc e.val_acc := by
  obtain ⟨p, v, ul, ua, sm, c, bl, ba, sd⟩ := es
  simp only at ha
  subst ha
  cases ul with
  | false =>
      by_cases h1 : ba < e.val_acc
      · simp [EarlyStopping.checkUpdate, h1, max_eq_right h1.le]
      · simp [EarlyStopping.checkUpdate, h1, max_eq_left (not_lt.mp h1)]
  | true =>
      by_cases h1 : (e.val_loss : WithTop ℚ) ≤ bl ∨ ba ≤ e.val_acc
      · simp [EarlyStopping.checkUpdate, h1]
      · have h2 : e.val_acc < ba := not_le.mp (fun hc => h1 (Or.inr hc))
        simp [EarlyStopping.checkUpdate, h1, max_eq_left h2.le]

/-- Claim C3: with both criteria and checkpointing enabled, a `check` call
saves a copy of the current model state as the kept checkpoint exactly when
`val_loss ≤ best_val_loss` and `val_acc ≥ best_val_acc` both hold, resets the
patience counter to 0 when at least one of the two comparisons holds, and
increments it by 1 when neither holds. -/
theorem dual_criterion_checkpointing {S : Type} (es : EarlyStopping S) (e : Evals) (m : S)
    (ep : ℕ) (hl : es.use_loss = true) (ha : es.use_acc = true) (hs : es.save_model = true) :
    ((es.check e m ep).1.state_dict =
      if (e.val_loss : WithTop ℚ) ≤ es.best_val_loss ∧ es.best_val_acc ≤ e.val_acc then some m
      else es.state_dict)
    ∧ ((es.check e m ep).1.counter =
      if (e.val_loss : WithTop ℚ) ≤ es.best_val_loss ∨ es.best_val_acc ≤ e.val_acc then 0
      else es.counter + 1) := by
  rw [check_fst]
  obtain ⟨p, v, ul, ua, sm, c, bl, ba, sd⟩ := es
  simp only at hl ha hs
  subst hl; subst ha; subst hs
  by_cases h1 : (e.val_loss : WithTop ℚ) ≤ bl ∨ ba ≤ e.val_acc
  · by_cases h2 : (e.val_loss : WithTop ℚ) ≤ bl ∧ ba ≤ e.val_acc
    · simp [EarlyStopping.checkUpdate, h1, h2]
    · simp [EarlyStopping.checkUpdate, h1, h2]
  · have h2 : ¬((e.val_loss : WithTop ℚ) ≤ bl ∧ ba ≤ e.val_acc) := fun hc => h1 (Or.inl hc.1)
    simp [EarlyStopping.checkUpdate, h1, h2]

/-- Claim C3, witness: on the fresh dual-criterion stopper `esW` and the
evaluation `evW`, both criteria improve, so the checkpoint is saved and the
counter is reset. -/
theorem dual_criterion_checkpointing_witness :
    ((esW.check evW () 1).1.state_dict =
      if (evW.val_loss : WithTop ℚ) ≤ esW.best_val_loss ∧ esW.best_val_acc ≤ evW.val_acc
      then some () else esW.state_dict)
    ∧ ((esW.check evW () 1).1.counter =
      if (evW.val_loss : WithTop ℚ) ≤ esW.best_val_loss ∨ esW.best_val_acc ≤ evW.val_acc
      then 0 else esW.counter + 1) :=
  dual_criterion_checkpointing esW evW () 1 rfl rfl rfl

/-- Claim C4: when a `check` call returns normally, it returns `True` (stop)
exactly when, after incorporating the current evaluation, the patience
counter has reached the configured patience. -/
theorem stop_iff_patience_reached {S : Type} (es : EarlyStopping S) (e : Evals) (m : S)
    (ep : ℕ) (m' : S) (stop : Bool) (h : (es.check e m ep).2 = some (m', stop)) :
    stop = true ↔ es.patience ≤ (es.checkUpdate e m).counter := by
  unfold EarlyStopping.check at h
  simp only [checkUpdate_patience, checkUpdate_save_model] at h
  by_cases hp : es.patience ≤ (es.checkUpdate e m).counter
  · rw [if_pos hp] at h
    cases hsm : es.save_model with
    | false =>
        rw [hsm] at h
        simp only [Bool.false_eq_true, if_false, Option.some.injEq, Prod.mk.injEq] at h
        exact ⟨fun _ => hp, fun _ => h.2.symm⟩
    | true =>
        rw [hsm] at h
        simp only [if_true] at h
        cases hsd : (es.checkUpdate e m).state_dict with
        | none => rw [hsd] at h; simp at h
        | some cpt =>
            rw [hsd] at h
            simp only [Option.map_some', Option.some.injEq, Prod.mk.injEq] at h
            exact ⟨fun _ => hp, fun _ => h.2.symm⟩
  · rw [if_neg hp] at h
    simp only [Option.some.injEq, Prod.mk.injEq] at h
    constructor
    · intro hst
      rw [hst] at h
      exact absurd h.2.symm (by simp)
    · intro hc
      exact absurd hc hp

/-- Claim C4, witness: on `esW` with `evW` the counter is reset to 0, which is
below the patience 2, and `check` indeed returns `False`. -/
theorem stop_iff_patience_reached_witness :
    (false = true ↔ esW.patience ≤ (esW.checkUpdate evW ()).counter) :=
  stop_iff_patience_reached esW evW () 1 () false (by decide)

/-- Claim C5: whenever `check` returns `True` with checkpointing enabled, the
model state it hands back is exactly the kept checkpoint (the effect of
`model.load_state_dict(self.state_dict)`, line 64). -/
theorem stop_restores_best_checkpoint {S : Type} (es : EarlyStopping S) (e : Evals) (m : S)
    (ep : ℕ) (m' : S) (hs : es.save_model = true)
    (h : (es.check e m ep).2 = some (m', true)) :
    (es.check e m ep).1.state_dict = some m' := by
  rw [check_fst]
  unfold EarlyStopping.check at h
  simp only [checkUpdate_patience, checkUpdate_save_model, hs, if_true] at h
  by_cases hp : es.patience ≤ (es.checkUpdate e m).counter
  · rw [if_pos hp] at h
    cases hsd : (es.checkUpdate e m).state_dict with
    | none => rw [hsd] at h; simp at h
    | some cpt =>
        rw [hsd] at h
        simp only [Option.map_some', Option.some.injEq, Prod.mk.injEq] at h
        rw [h.1]
  · rw [if_neg hp] at h
    simp at h

/-- Claim C5, witness: the fresh loss-only stopper `es5` with patience 0 saves
a checkpoint on the improving evaluation `evW` and immediately stops,
returning that checkpoint. -/
theorem stop_restores_best_checkpoint_witness :
    (es5.check evW () 1).1.state_dict = some () :=
  stop_restores_best_checkpoint es5 evW () 1 () rfl (by decide)

/-- Claim C8: constructing an `EarlyStopping` with both criteria disabled
fails the `assert`; any other combination succeeds and initializes the
counter to 0, the best validation loss to `+∞`, the best validation accuracy
to 0 and the kept checkpoint to `None`. -/
theorem init_requires_criterion (S : Type) (p : ℕ) (v ul ua sm : Bool) :
    (ul = false ∧ ua = false → EarlyStopping.init? S p v ul ua sm = none)
    ∧ (ul = true ∨ ua = true →
        EarlyStopping.init? S p v ul ua sm =
          some { patience := p, verbose := v, use_loss := ul, use_acc := ua, save_model := sm,
                 counter := 0, best_val_loss := ⊤, best_val_acc := 0, state_dict := none }) := by
  cases ul <;> cases ua <;> simp [EarlyStopping.init?]

/-- Claim C8, witness: a loss-only construction succeeds with the documented
initial tracking state. -/
theorem init_requires_criterion_witness :
    EarlyStopping.init? Unit 3 false true false false =
      some { patience := 3, verbose := false, use_loss := true, use_acc := false,
             save_model := false, counter := 0, best_val_loss := ⊤, best_val_acc := 0,
             state_dict := none } :=
  (init_requires_criterion Unit 3 false true false false).2 (Or.inl rfl)

/-- Claim C10, counterexample: with `patience = 0`, `use_acc` only,
`save_model = True` and a non-improving evaluation (`val_acc = 0` does not
beat `best_val_acc = 0`), the call reaches
`model.load_state_dict(self.state_dict)` with `state_dict = None` and raises
instead of returning `True`; so not every `patience = 0` call to `check`
returns `True`. -/
theorem patience_zero_counterexample : (esAccC.check evC () 1).2 = none := by decide

/-- Claim C10, amended: with `patience = 0` every `check` call that returns
normally returns `True` — even when the evaluation improves the best metrics
and resets the counter to 0, since `counter >= patience` already holds at 0 —
and when `save_model` is disabled the call always returns normally (with the
model state untouched); the only calls that fail to return `True` are those
that raise while restoring a never-saved (`None`) checkpoint. -/
theorem patience_zero_always_stop {S : Type} (es : EarlyStopping S) (e : Evals) (m : S)
    (ep : ℕ) (hp : es.patience = 0) :
    (∀ m' stop, (es.check e m ep).2 = some (m', stop) → stop = true)
    ∧ (es.save_model = false → (es.check e m ep).2 = some (m, true)) := by
  have hp' : es.patience ≤ (es.checkUpdate e m).counter := by
    rw [hp]; exact Nat.zero_le _
  constructor
  · intro m' stop h
    unfold EarlyStopping.check at h
    simp only [checkUpdate_patience, checkUpdate_save_model] at h
    rw [if_pos hp'] at h
    cases hsm : es.save_model with
    | false =>
        rw [hsm] at h
        simp only [Bool.false_eq_true, if_false, Option.some.injEq, Prod.mk.injEq] at h
        exact h.2.symm
    | true =>
        rw [hsm] at h
        simp only [if_true] at h
        cases hsd : (es.checkUpdate e m).state_dict with
        | none => rw [hsd] at h; simp at h
        | some cpt =>
            rw [hsd] at h
            simp only [Option.map_some', Option.some.injEq, Prod.mk.injEq] at h
            exact h.2.symm
  · intro hsm
    unfold EarlyStopping.check
    simp only [checkUpdate_patience, checkUpdate_save_model]
    rw [if_pos hp', hsm]
    simp

/-- Claim C10, witness: with `patience = 0` and no checkpointing (`es10`),
a call on an improving evaluation still returns `True`. -/
theorem patience_zero_always_stop_witness :
    (es10.check evW () 1).2 = some ((), true) :=
  (patience_zero_always_stop es10 evW () 1 rfl).2 rfl

/-- `runChecks` distributes over `cons`. -/
theorem runChecks_cons {S : Type} (es : EarlyStopping S) (x : Evals × S) (l : List (Evals × S)) :
    runChecks es (x :: l) = runChecks (es.checkUpdate x.1 x.2) l := rfl

/-- `runChecks` distributes over `append`. -/
theorem runChecks_append {S : Type} (es : EarlyStopping S) (l l' : List (Evals × S)) :
    runChecks es (l ++ l') = runChecks (runChecks es l) l' := by
  simp [runChecks, List.foldl_append]

/-- A sequence of `check` calls never touches the configuration fields. -/
theorem runChecks_config {S : Type} (l : List (Evals × S)) :
    ∀ es : EarlyStopping S,
      (runChecks es l).patience = es.patience ∧ (runChecks es l).verbose = es.verbose
      ∧ (runChecks es l).use_loss = es.use_loss ∧ (runChecks es l).use_acc = es.use_acc
      ∧ (runChecks es l).save_model = es.save_model := by
  induction l with
  | nil => intro es; exact ⟨rfl, rfl, rfl, rfl, rfl⟩
  | cons x xs ih =>
      intro es
      rw [runChecks_cons]
      obtain ⟨h1, h2, h3, h4, h5⟩ := ih (es.checkUpdate x.1 x.2)
      simp [h1, h2, h3, h4, h5]

/-- With the loss criterion enabled, the best validation loss after a sequence
of `check` calls is the minimum of its starting value and all losses seen. -/
theorem runChecks_best_val_loss {S : Type} (l : List (Evals × S)) :
    ∀ es : EarlyStopping S, es.use_loss = true →
      (runChecks es l).best_val_loss =
        (l.map (fun p => p.1.val_loss)).foldl (fun b q => min b (q : WithTop ℚ))
          es.best_val_loss := by
  induction l with
  | nil => intro es _; rfl
  | cons x xs ih =>
      intro es h
      rw [runChecks_cons, List.map_cons, List.foldl_cons,
        ih _ (by rw [checkUpdate_use_loss]; exact h), checkUpdate_best_val_loss es x.1 x.2 h]

/-- With the accuracy criterion enabled, the best validation accuracy after a
sequence of `check` calls is the maximum of its starting value and all
accuracies seen. -/
theorem runChecks_best_val_acc {S : Type} (l : List (Evals × S)) :
    ∀ es : EarlyStopping S, es.use_acc = true →
      (runChecks es l).best_val_acc =
        (l.map (fun p => p.1.val_acc)).foldl max es.best_val_acc := by
  induction l with
  | nil => intro es _; rfl
  | cons x xs ih =>
      intro es h
      rw [runChecks_cons, List.map_cons, List.foldl_cons,
        ih _ (by rw [checkUpdate_use_acc]; exact h), checkUpdate_best_val_acc es x.1 x.2 h]

/-- Claim C2: along any sequence of `check` calls starting from the freshly
initialized metrics, with the loss criterion enabled the best validation loss
is non-increasing and always equals the minimum of its initial value
`+∞` and all validation losses seen so far; with the accuracy criterion
enabled the best validation accuracy is non-decreasing and always equals the
maximum of its initial value 0 and all validation accuracies seen so far. -/
theorem best_metric_tracking {S : Type} (es : EarlyStopping S) (l : List (Evals × S))
    (x : Evals × S) :
    (es.use_loss = true →
        (es.best_val_loss = ⊤ →
          (runChecks es l).best_val_loss =
            (l.map (fun p => p.1.val_loss)).foldl (fun b q => min b (q : WithTop ℚ)) ⊤)
        ∧ (runChecks es (l ++ [x])).best_val_loss ≤ (runChecks es l).best_val_loss)
    ∧ (es.use_acc = true →
        (es.best_val_acc = 0 →
          (runChecks es l).best_val_acc = (l.map (fun p => p.1.val_acc)).foldl max 0)
        ∧ (runChecks es l).best_val_acc ≤ (runChecks es (l ++ [x])).best_val_acc) := by
  constructor
  · intro hl
    constructor
    · intro h0
      rw [runChecks_best_val_loss l es hl, h0]
    · rw [runChecks_append, runChecks_cons]
      have hl' : (runChecks es l).use_loss = true := by
        rw [(runChecks_config l es).2.2.1]; exact hl
      rw [show runChecks ((runChecks es l).checkUpdate x.1 x.2) [] =
            (runChecks es l).checkUpdate x.1 x.2 from rfl,
        checkUpdate_best_val_loss _ x.1 x.2 hl']
      exact min_le_left _ _
  · intro ha
    constructor
    · intro h0
      rw [runChecks_best_val_acc l es ha, h0]
    · rw [runChecks_append, runChecks_cons]
      have ha' : (runChecks es l).use_acc = true := by
        rw [(runChecks_config l es).2.2.2.1]; exact ha
      rw [show runChecks ((runChecks es l).checkUpdate x.1 x.2) [] =
            (runChecks es l).checkUpdate x.1 x.2 from rfl,
        checkUpdate_best_val_acc _ x.1 x.2 ha']
      exact le_max_left _ _

/-- Claim C2, witness: two concrete calls on the fresh dual stopper `esW`. -/
theorem best_metric_tracking_witness :
    ((runChecks esW [(evW, ())]).best_val_loss =
        ([(evW, ())].map (fun p => p.1.val_loss)).foldl (fun b q => min b (q : WithTop ℚ)) ⊤
      ∧ (runChecks esW ([(evW, ())] ++ [(evW2, ())])).best_val_loss ≤
          (runChecks esW [(evW, ())]).best_val_loss)
    ∧ ((runChecks esW [(evW, ())]).best_val_acc =
        ([(evW, ())].map (fun p => p.1.val_acc)).foldl max 0
      ∧ (runChecks esW [(evW, ())]).best_val_acc ≤
          (runChecks esW ([(evW, ())] ++ [(evW2, ())])).best_val_acc) := by
  have h := best_metric_tracking esW [(evW, ())] (evW2, ())
  obtain ⟨h1, h2⟩ := h
  obtain ⟨h1a, h1b⟩ := h1 rfl
  obtain ⟨h2a, h2b⟩ := h2 rfl
  exact ⟨⟨h1a rfl, h1b⟩, ⟨h2a rfl, h2b⟩⟩

/-- Claim C9: after any sequence of `check` calls on a freshly constructed
`EarlyStopping`, `reset` restores the object exactly to its
freshly-constructed state (tracking fields back to `0`, `+∞`, `0`, `None`;
configuration fields untouched); in particular `reset` right after
construction is a no-op. -/
theorem reset_roundtrip_fresh {S : Type} (p : ℕ) (v ul ua sm : Bool) (es : EarlyStopping S)
    (l : List (Evals × S)) (h : EarlyStopping.init? S p v ul ua sm = some es) :
    (runChecks es l).reset = es := by
  unfold EarlyStopping.init? at h
  by_cases hc : (ul || ua) = true
  · rw [if_pos hc] at h
    simp only [Option.some.injEq] at h
    subst h
    ext
    · rw [EarlyStopping.reset]; exact (runChecks_config l _).1
    · rw [EarlyStopping.reset]; exact (runChecks_config l _).2.1
    · rw [EarlyStopping.reset]; exact (runChecks_config l _).2.2.1
    · rw [EarlyStopping.reset]; exact (runChecks_config l _).2.2.2.1
    · rw [EarlyStopping.reset]; exact (runChecks_config l _).2.2.2.2
    · rfl
    · rfl
    · rfl
    · rfl
  · rw [if_neg hc] at h
    exact absurd h (by simp)

/-- Claim C9, witness: `reset` after one `check` call on the freshly
constructed `es9` gives back `es9`. -/
theorem reset_roundtrip_fresh_witness :
    (runChecks es9 [(evW, ())]).reset = es9 :=
  reset_roundtrip_fresh 2 false true false false es9 [(evW, ())] (by decide)

/-- A training step keeps every configuration field of the trainer. -/
theorem train_epochs {S O R D : Type} (t : Trainer S O R D) (env : TorchEnv S O R D) (rng : R) :
    (t.train env rng).1.epochs = t.epochs := rfl

/-- Resetting keeps the epoch budget. -/
theorem reset_epochs {S O R D : Type} (t : Trainer S O R D) (env : TorchEnv S O R D) (rng : R) :
    (t.reset env rng).1.epochs = t.epochs := rfl

/-- The inner epoch loop executes at most `fuel` iterations and keeps the
epoch budget. -/
theorem runEpochs_sound {S O R D : Type} (env : TorchEnv S O R D) :
    ∀ (fuel : ℕ) (t : Trainer S O R D) (rng : R) (ep : ℕ) (t' : Trainer S O R D) (rng' : R)
      (c : ℕ), Trainer.runEpochs env t rng ep fuel = some (t', rng', c) →
        c ≤ fuel ∧ t'.epochs = t.epochs := by
  intro fuel
  induction fuel with
  | zero =>
      intro t rng ep t' rng' c h
      simp only [Trainer.runEpochs, Option.some.injEq, Prod.mk.injEq] at h
      obtain ⟨h1, h2, h3⟩ := h
      subst h1; subst h2; subst h3
      exact ⟨Nat.le_refl 0, rfl⟩
  | succ n ih =>
      intro t rng ep t' rng' c h
      simp only [Trainer.runEpochs] at h
      cases hES : (t.train env rng).1.early_stopping with
      | false =>
          rw [hES] at h
          simp only [Bool.false_eq_true, if_false] at h
          obtain ⟨a, ha, hfa⟩ := Option.map_eq_some'.mp h
          obtain ⟨hc1, hc2⟩ := ih (t.train env rng).1 (t.train env rng).2 (ep + 1) a.1 a.2.1
            a.2.2 (by rw [← ha])
          simp only [Prod.mk.injEq] at hfa
          obtain ⟨h1, h2, h3⟩ := hfa
          subst h1; subst h3
          exact ⟨Nat.succ_le_succ hc1, hc2⟩
      | true =>
          rw [hES] at h
          simp only [if_true] at h
          obtain ⟨sc, hsc, h2⟩ := Option.bind_eq_some.mp h
          try dsimp only at h2
          obtain ⟨pr, hpr, h3⟩ := Option.bind_eq_some.mp h2
          try dsimp only at h3
          cases hstop : pr.2 with
          | true =>
              rw [hstop] at h3
              simp only [if_true, Option.some.injEq, Prod.mk.injEq] at h3
              obtain ⟨h1, hh2, hh3⟩ := h3
              subst hh2; subst hh3
              refine ⟨Nat.succ_le_succ (Nat.zero_le n), ?_⟩
              rw [← h1]
              rfl
          | false =>
              rw [hstop] at h3
              simp only [Bool.false_eq_true, if_false] at h3
              obtain ⟨a, ha, hfa⟩ := Option.map_eq_some'.mp h3
              obtain ⟨hc1, hc2⟩ := ih _ _ (ep + 1) a.1 a.2.1 a.2.2 (by rw [← ha])
              simp only [Prod.mk.injEq] at hfa
              obtain ⟨h1, h2', h3'⟩ := hfa
              subst h1; subst h3'
              exact ⟨Nat.succ_le_succ hc1, hc2⟩

/-- One restart executes at most `epochs` train/evaluate iterations and keeps
the epoch budget. -/
theorem runOnce_sound {S O R D : Type} (env : TorchEnv S O R D) (t : Trainer S O R D) (rng : R)
    (t2 : Trainer S O R D) (rng2 : R) (c : ℕ) (ev : Evals)
    (h : Trainer.runOnce env t rng = some (t2, rng2, c, ev)) :
    c ≤ t.epochs ∧ t2.epochs = t.epochs := by
  unfold Trainer.runOnce at h
  obtain ⟨a, ha, hfa⟩ := Option.map_eq_some'.mp h
  obtain ⟨hc1, hc2⟩ := runEpochs_sound env (t.reset env rng).1.epochs (t.reset env rng).1
    (t.reset env rng).2 1 a.1 a.2.1 a.2.2 ha
  simp only [Prod.mk.injEq] at hfa
  obtain ⟨h1, h2, h3, h4⟩ := hfa
  subst h1; subst h3
  exact ⟨hc1.trans (le_of_eq (reset_epochs t env rng)), hc2.trans (reset_epochs t env rng)⟩

/-- The restart loop produces exactly `n` recorded validation accuracies,
test accuracies and epoch counts, every count at most the epoch budget. -/
theorem runLoop_sound {S O R D : Type} (env : TorchEnv S O R D) :
    ∀ (n : ℕ) (t : Trainer S O R D) (rng : R) (t3 : Trainer S O R D) (rng3 : R)
      (vl tl : List ℚ) (cl : List ℕ),
      Trainer.runLoop env n t rng = some (t3, rng3, vl, tl, cl) →
        vl.length = n ∧ tl.length = n ∧ cl.length = n ∧ ∀ c ∈ cl, c ≤ t.epochs := by
  intro n
  induction n with
  | zero =>
      intro t rng t3 rng3 vl tl cl h
      simp only [Trainer.runLoop, Option.some.injEq, Prod.mk.injEq] at h
      obtain ⟨h1, h2, h3, h4, h5⟩ := h
      subst h3; subst h4; subst h5
      simp
  | succ n ih =>
      intro t rng t3 rng3 vl tl cl h
      simp only [Trainer.runLoop] at h
      obtain ⟨r, hr, h2⟩ := Option.bind_eq_some.mp h
      try dsimp only at h2
      obtain ⟨q, hq, hfq⟩ := Option.map_eq_some'.mp h2
      obtain ⟨hv, htl, hcl, hbd⟩ := ih r.1 r.2.1 q.1 q.2.1 q.2.2.1 q.2.2.2.1 q.2.2.2.2 hq
      obtain ⟨hc1, hc2⟩ := runOnce_sound env t rng r.1 r.2.1 r.2.2.1 r.2.2.2 (by
        rw [hr])
      simp only [Prod.mk.injEq] at hfq
      obtain ⟨g1, g2, g3, g4, g5⟩ := hfq
      subst g3; subst g4; subst g5
      refine ⟨by simp [hv], by simp [htl], by simp [hcl], ?_⟩
      intro c hc
      rcases List.mem_cons.mp hc with hc | hc
      · subst hc; exact hc1
      · exact (hbd c hc).trans (le_of_eq hc2)

/-- Claim C7: `Trainer.reset` replaces the optimizer by a newly constructed
`Adam` over the current learning rate and weight decay, re-initializes the
model parameters (advancing the RNG), resets the early-stopping state when
early stopping is enabled, and leaves `lr`, `weight_decay`, `epochs`,
`niter`, `data` and the `early_stopping` flag unchanged. -/
theorem reset_frame_spec {S O R D : Type} (env : TorchEnv S O R D) (t : Trainer S O R D)
    (rng : R) :
    (t.reset env rng).1.optimizer = env.adamInit t.lr t.weight_decay
    ∧ (t.reset env rng).1.model = (env.resetParams t.model rng).1
    ∧ (t.reset env rng).2 = (env.resetParams t.model rng).2
    ∧ (t.early_stopping = true →
        (t.reset env rng).1.stop_checker = t.stop_checker.map EarlyStopping.reset)
    ∧ (t.reset env rng).1.lr = t.lr
    ∧ (t.reset env rng).1.weight_decay = t.weight_decay
    ∧ (t.reset env rng).1.epochs = t.epochs
    ∧ (t.reset env rng).1.niter = t.niter
    ∧ (t.reset env rng).1.data = t.data
    ∧ (t.reset env rng).1.early_stopping = t.early_stopping := by
  refine ⟨rfl, rfl, rfl, ?_, rfl, rfl, rfl, rfl, rfl, rfl⟩
  intro h
  simp only [Trainer.reset, h, if_true]

/-- Claim C7, witness: resetting the concrete trainer `t1w` (early stopping
enabled). -/
theorem reset_frame_spec_witness :
    (t1w.reset env0 7).1.optimizer = env0.adamInit t1w.lr t1w.weight_decay
    ∧ (t1w.reset env0 7).1.model = (env0.resetParams t1w.model 7).1
    ∧ (t1w.reset env0 7).2 = (env0.resetParams t1w.model 7).2
    ∧ (t1w.reset env0 7).1.stop_checker = t1w.stop_checker.map EarlyStopping.reset
    ∧ (t1w.reset env0 7).1.lr = t1w.lr
    ∧ (t1w.reset env0 7).1.weight_decay = t1w.weight_decay
    ∧ (t1w.reset env0 7).1.epochs = t1w.epochs
    ∧ (t1w.reset env0 7).1.niter = t1w.niter
    ∧ (t1w.reset env0 7).1.data = t1w.data
    ∧ (t1w.reset env0 7).1.early_stopping = t1w.early_stopping := by
  have h := reset_frame_spec env0 t1w 7
  exact ⟨h.1, h.2.1, h.2.2.1, h.2.2.2.1 rfl, h.2.2.2.2.1, h.2.2.2.2.2.1, h.2.2.2.2.2.2.1,
    h.2.2.2.2.2.2.2.1, h.2.2.2.2.2.2.2.2.1, h.2.2.2.2.2.2.2.2.2⟩

/-- Claim C6: `Trainer.run` terminates after exactly `niter` restarts (one
recorded accuracy and epoch count per restart), every restart executes at
most `epochs` train/evaluate iterations, and the inner epoch loop exits
as soon as the stop checker signals stop (the iteration whose `check`
returns `True` is the restart's last, whatever fuel remains). -/
theorem run_schedule_bounds {S O R D : Type} (env : TorchEnv S O R D) (t : Trainer S O R D)
    (rng : R) (res : RunResult) (t1 : Trainer S O R D) (rng1 : R) (ep fuel : ℕ)
    (sc : EarlyStopping S) (m' : S) :
    (Trainer.run env t rng = some res →
      res.val_list.length = t.niter ∧ res.test_list.length = t.niter
      ∧ res.epoch_counts.length = t.niter ∧ ∀ c ∈ res.epoch_counts, c ≤ t.epochs)
    ∧ ((t1.train env rng1).1.early_stopping = true →
      (t1.train env rng1).1.stop_checker = some sc →
      (sc.check ((t1.train env rng1).1.evaluate env) (t1.train env rng1).1.model ep).2 =
        some (m', true) →
      Trainer.runEpochs env t1 rng1 ep (fuel + 1) =
        some ({ (t1.train env rng1).1 with
                stop_checker := some (sc.check ((t1.train env rng1).1.evaluate env)
                  (t1.train env rng1).1.model ep).1,
                model := m' }, (t1.train env rng1).2, 1)) := by
  constructor
  · intro h
    unfold Trainer.run at h
    obtain ⟨r, hr, hfr⟩ := Option.map_eq_some'.mp h
    obtain ⟨hv, htl, hcl, hbd⟩ :=
      runLoop_sound env t.niter t rng r.1 r.2.1 r.2.2.1 r.2.2.2.1 r.2.2.2.2 hr
    subst hfr
    exact ⟨hv, htl, hcl, hbd⟩
  · intro hES hsc hcr
    simp only [Trainer.runEpochs, hES, if_true, hsc, Option.some_bind, hcr]

/-- Claim C6, witness: the concrete run `Trainer.run env0 t0 0` does 2
restarts of 0 epochs each, and the stopping trainer `t1w` exits its epoch
loop after exactly 1 iteration with 3 fuel remaining. -/
theorem run_schedule_bounds_witness :
    (res0.val_list.length = t0.niter ∧ res0.test_list.length = t0.niter
      ∧ res0.epoch_counts.length = t0.niter ∧ ∀ c ∈ res0.epoch_counts, c ≤ t0.epochs)
    ∧ Trainer.runEpochs env0 t1w 0 1 (3 + 1) =
        some ({ (t1w.train env0 0).1 with
                stop_checker := some (scW.check ((t1w.train env0 0).1.evaluate env0)
                  (t1w.train env0 0).1.model 1).1,
                model := 5 }, (t1w.train env0 0).2, 1) := by
  have h := run_schedule_bounds env0 t0 0 res0 t1w 0 1 3 scW 5
  exact ⟨h.1 rfl, h.2 rfl rfl (by decide)⟩

/-- Claim C1, counterexample: on the concrete two-restart run
`Trainer.run env0 t0 0` the recorded test accuracies are `[0, 1]`, whose
variance is `1/4`; but the returned `test_acc_std` entry is
`numpy.std([0, 1]) = 1/2`, the standard deviation, not the variance. -/
theorem run_std_counterexample :
    Trainer.run env0 t0 0 = some res0
    ∧ res0.test_acc_std ≠ ((npVariance res0.test_list : ℚ) : ℝ) := by
  have hv : npVariance res0.test_list = 1 / 4 := by
    show npVariance [0, 1] = 1 / 4
    norm_num [npVariance, npMean]
  have h2 : res0.test_acc_std = Real.sqrt ((npVariance res0.test_list : ℚ) : ℝ) := rfl
  refine ⟨rfl, ?_⟩
  rw [h2, hv]
  have hc : (((1 : ℚ) / 4 : ℚ) : ℝ) = (1 / 4 : ℝ) := by norm_num
  rw [hc]
  have hs : Real.sqrt (1 / 4 : ℝ) = 1 / 2 := by
    rw [show (1 / 4 : ℝ) = (1 / 2 : ℝ) ^ 2 by norm_num,
      Real.sqrt_sq (by norm_num : (0 : ℝ) ≤ 1 / 2)]
  rw [hs]
  norm_num

/-- Claim C1, amended: `Trainer.run` executes its full schedule of `niter`
restarts and returns a dictionary whose `val_acc` / `test_acc` entries are
the means of the per-restart final validation / test accuracies, and whose
`test_acc_std` entry is the standard deviation (`numpy.std`, the square root
of the variance — not the variance itself) of the per-restart final test
accuracies.  `0 < niter` keeps numpy's mean of an empty list (`nan`) out of
scope. -/
theorem run_mean_and_std {S O R D : Type} (env : TorchEnv S O R D) (t : Trainer S O R D)
    (rng : R) (res : RunResult) (hn : 0 < t.niter)
    (h : Trainer.run env t rng = some res) :
    res.val_list.length = t.niter
    ∧ res.test_list.length = t.niter
    ∧ res.val_acc = npMean res.val_list
    ∧ res.test_acc = npMean res.test_list
    ∧ res.test_acc_std = Real.sqrt ((npVariance res.test_list : ℚ) : ℝ) := by
  unfold Trainer.run at h
  obtain ⟨r, hr, hfr⟩ := Option.map_eq_some'.mp h
  obtain ⟨hv, htl, _, _⟩ :=
    runLoop_sound env t.niter t rng r.1 r.2.1 r.2.2.1 r.2.2.2.1 r.2.2.2.2 hr
  subst hfr
  exact ⟨hv, htl, rfl, rfl, rfl⟩

/-- Claim C1, witness: the two-restart run over `env0`. -/
theorem run_mean_and_std_witness :
    res0.val_list.length = t0.niter
    ∧ res0.test_list.length = t0.niter
    ∧ res0.val_acc = npMean res0.val_list
    ∧ res0.test_acc = npMean res0.test_list
    ∧ res0.test_acc_std = Real.sqrt ((npVariance res0.test_list : ℚ) : ℝ) :=
  run_mean_and_std env0 t0 0 res0 (by decide) rfl
